import Mathlib

/-!
Verification of the real-time fan-out subsystem of the campuspandit backend.

We shallowly embed the two connection managers
(`backend/app/websockets/connection_manager.py` and
`backend/app/sse/sse_manager.py`), the PostgreSQL LISTEN/NOTIFY bridge
(`backend/app/realtime/pg_listener.py`) and the WebSocket endpoint's frame
dispatch (`backend/app/api/v1/endpoints/websocket.py`).

Python dictionaries are embedded as association lists over `String` keys;
Python sets as duplicate-free lists maintained by insert-if-absent / filter.
WebSocket objects and asyncio queues are identified by natural numbers.
I/O effects (socket sends, queue puts, presence broadcasts, callback
invocations) are made visible as explicit traces returned by the
operations; failure of a send and fullness of a queue are supplied as
function parameters, since they are environmental.
-/

set_option autoImplicit false

namespace CampusPandit

/-- First value bound to `key`, mirroring Python `d[key]` / `key in d`. -/
def alookup {α : Type} : List (String × α) → String → Option α
  | [], _ => none
  | (k, v) :: rest, key => if k = key then some v else alookup rest key

/-- `d[key] = v`: replace the binding if present, append it otherwise. -/
def aset {α : Type} : List (String × α) → String → α → List (String × α)
  | [], key, v => [(key, v)]
  | (k, w) :: rest, key, v =>
      if k = key then (k, v) :: rest else (k, w) :: aset rest key v

/-- `del d[key]`: drop every binding of `key` (dicts hold it at most once). -/
def adel {α : Type} (m : List (String × α)) (key : String) : List (String × α) :=
  m.filter (fun p => p.1 ≠ key)

/-- Python `set.add`: insert if absent. -/
def sinsert {α : Type} [DecidableEq α] (l : List α) (x : α) : List α :=
  if x ∈ l then l else l ++ [x]

/-- Python `set.discard`: remove the element if present. -/
def sremove {α : Type} [DecidableEq α] (l : List α) (x : α) : List α :=
  l.filter (fun y => y ≠ x)

@[simp] theorem alookup_nil {α : Type} (key : String) :
    alookup ([] : List (String × α)) key = none := rfl

theorem alookup_aset_self {α : Type} (m : List (String × α)) (key : String) (v : α) :
    alookup (aset m key v) key = some v := by
  induction m with
  | nil => simp [aset, alookup]
  | cons p rest ih =>
      obtain ⟨k, w⟩ := p
      by_cases hk : k = key
      · simp [aset, hk, alookup]
      · simp [aset, hk, alookup, ih]

theorem alookup_aset_other {α : Type} (m : List (String × α)) (key key' : String) (v : α)
    (hne : key' ≠ key) : alookup (aset m key v) key' = alookup m key' := by
  induction m with
  | nil => simp [aset, alookup, Ne.symm hne]
  | cons p rest ih =>
      obtain ⟨k, w⟩ := p
      by_cases hk : k = key
      · subst hk
        simp [aset, alookup, Ne.symm hne]
      · simp [aset, hk, alookup, ih]

theorem aset_self_of_lookup {α : Type} (m : List (String × α)) (key : String) (v : α)
    (h : alookup m key = some v) : aset m key v = m := by
  induction m with
  | nil => simp [alookup] at h
  | cons p rest ih =>
      obtain ⟨k, w⟩ := p
      by_cases hk : k = key
      · subst hk
        simp [alookup] at h
        simp [aset, h]
      · simp [alookup, hk] at h
        simp [aset, hk, ih h]

theorem alookup_adel_self {α : Type} (m : List (String × α)) (key : String) :
    alookup (adel m key) key = none := by
  induction m with
  | nil => rfl
  | cons p rest ih =>
      obtain ⟨k, w⟩ := p
      by_cases hk : k = key
      · simpa [adel, hk] using ih
      · simpa [adel, hk, alookup] using ih

theorem sremove_eq_self_of_not_mem {α : Type} [DecidableEq α] (l : List α) (x : α)
    (h : x ∉ l) : sremove l x = l := by
  induction l with
  | nil => rfl
  | cons a rest ih =>
      simp only [List.mem_cons, not_or] at h
      have h1 : a ≠ x := Ne.symm h.1
      simp [sremove, h1]
      intro b hb hbx
      exact h.2 (hbx ▸ hb)

theorem not_mem_sremove {α : Type} [DecidableEq α] (l : List α) (x : α) :
    x ∉ sremove l x := by
  intro hx
  have := List.of_mem_filter hx
  simp at this

/-!
## WebSocket connection manager

Embeds `ConnectionManager` from
`backend/app/websockets/connection_manager.py`.  WebSocket objects are
identified by `Nat`.  `user_presence` maps users to timestamps in the
source; timestamps are irrelevant to every claim, so we keep only the key
set.  Presence broadcasts (`broadcast_presence_update(user_id, is_online)`)
are returned as a trace of `(user_id, is_online)` invocations.
-/

structure WSState where
  active_connections : List (String × List Nat)
  channel_members : List (String × List String)
  user_presence : List String
  deriving DecidableEq, Repr

/-- `ConnectionManager.connect` (lines 40-54): registers the socket, updates
presence, and then unconditionally calls
`broadcast_presence_update(user_id, True)`. -/
def wsConnect (st : WSState) (user : String) (ws : Nat) : WSState × List (String × Bool) :=
  let conns := (alookup st.active_connections user).getD []
  ({ st with
      active_connections := aset st.active_connections user (sinsert conns ws),
      user_presence := sinsert st.user_presence user },
   [(user, true)])

/-- `ConnectionManager.disconnect` (lines 56-71): discards the socket; when
the user's set becomes empty, removes the user from `active_connections` and
`user_presence` and broadcasts a presence-offline event.  `channel_members`
is not touched. -/
def wsDisconnect (st : WSState) (user : String) (ws : Nat) : WSState × List (String × Bool) :=
  match alookup st.active_connections user with
  | none => (st, [])
  | some conns =>
      let conns' := sremove conns ws
      if conns' = [] then
        ({ st with
            active_connections := adel st.active_connections user,
            user_presence := sremove st.user_presence user },
         [(user, false)])
      else
        ({ st with active_connections := aset st.active_connections user conns' }, [])

/-- `ConnectionManager.send_personal_message` (lines 73-91): tries
`send_text` on every socket of the user; a raising send (`fails ws = true`)
is logged, collected, and afterwards subtracted from the user's set.  The
returned list holds the sockets on which the send succeeded. -/
def wsSendPersonalMessage (fails : Nat → Bool) (st : WSState) (user : String) :
    WSState × List Nat :=
  match alookup st.active_connections user with
  | none => (st, [])
  | some conns =>
      let delivered := conns.filter (fun ws => !(fails ws))
      let disconnected := conns.filter (fun ws => fails ws)
      if disconnected = [] then (st, delivered)
      else
        ({ st with active_connections := aset st.active_connections user delivered },
         delivered)

/-- Python truthiness guard `if exclude_user and user_id == exclude_user`
(line 101): the sender is skipped only when `exclude_user` is a non-empty
string equal to the subscriber. -/
def wsExcluded (excludeUser : Option String) (user : String) : Bool :=
  match excludeUser with
  | none => false
  | some e => decide (e ≠ "") && decide (user = e)

/-- `ConnectionManager.broadcast_to_channel` (lines 93-109): for every
member of the channel except the excluded user, attempts `send_text` on all
of that member's sockets; exceptions are logged and nothing is removed.
Returns the `(user, socket)` pairs on which the send succeeded. -/
def wsBroadcastToChannel (fails : Nat → Bool) (st : WSState) (channelId : String)
    (excludeUser : Option String) : List (String × Nat) :=
  match alookup st.channel_members channelId with
  | none => []
  | some members =>
      (members.filter (fun u => !(wsExcluded excludeUser u))).flatMap (fun u =>
        (((alookup st.active_connections u).getD []).filter
          (fun ws => !(fails ws))).map (fun ws => (u, ws)))

/-- `ConnectionManager.join_channel` (lines 111-119). -/
def wsJoinChannel (st : WSState) (channelId user : String) : WSState :=
  { st with
      channel_members :=
        aset st.channel_members channelId
          (sinsert ((alookup st.channel_members channelId).getD []) user) }

/-- `ConnectionManager.leave_channel` (lines 121-131): discards the user;
an emptied channel entry is deleted. -/
def wsLeaveChannel (st : WSState) (channelId user : String) : WSState :=
  match alookup st.channel_members channelId with
  | none => st
  | some members =>
      let members' := sremove members user
      if members' = [] then
        { st with channel_members := adel st.channel_members channelId }
      else
        { st with channel_members := aset st.channel_members channelId members' }

/-- `ConnectionManager.broadcast_typing_indicator` (lines 133-143):
broadcasts the typing event with `exclude_user=user_id`. -/
def wsBroadcastTypingIndicator (fails : Nat → Bool) (st : WSState)
    (channelId user : String) : List (String × Nat) :=
  wsBroadcastToChannel fails st channelId (some user)

/-- `ConnectionManager.broadcast_read_receipt` (lines 192-202): broadcasts
the read-receipt event with NO `exclude_user` argument. -/
def wsBroadcastReadReceipt (fails : Nat → Bool) (st : WSState)
    (channelId user : String) : List (String × Nat) :=
  wsBroadcastToChannel fails st channelId none

/-- `ConnectionManager.is_user_online` (lines 208-210). -/
def wsIsUserOnline (st : WSState) (user : String) : Bool :=
  (alookup st.active_connections user).isSome

/-- Subscriber set of a channel as stored in `channel_members`. -/
def wsSubscribers (st : WSState) (channelId : String) : List String :=
  (alookup st.channel_members channelId).getD []

/-!
## SSE connection manager

Embeds `SSEConnectionManager` from `backend/app/sse/sse_manager.py`.
Queues (`asyncio.Queue(maxsize=100)`) are identified by `Nat`; the current
size of each queue is supplied as a function `sz : Nat → Nat`.  `await
queue.put(msg)` enqueues immediately when `sz q < 100` and otherwise
suspends the caller until a consumer frees space — it raises nothing and
removes nothing.  We model one scheduling step of `send_to_user`: puts are
performed in order until the first full queue, where the coroutine blocks;
the result reports the queues that received the event and the queue the
call is blocked on, if any.
-/

structure SSEState where
  user_connections : List (String × List Nat)
  channel_members : List (String × List String)
  user_presence : List String
  deriving DecidableEq, Repr

/-- `asyncio.Queue(maxsize=100).put` accepts immediately iff the queue
holds fewer than 100 items. -/
def ssePutReady (sz : Nat → Nat) (q : Nat) : Bool := decide (sz q < 100)

/-- Sequential `await queue.put` over a user's queues: enqueue until the
first full queue, where the caller suspends.  Returns the queues that
received the event and the blocking queue, if any. -/
def ssePutAll (sz : Nat → Nat) : List Nat → List Nat × Option Nat
  | [] => ([], none)
  | q :: rest =>
      if ssePutReady sz q then
        let r := ssePutAll sz rest
        (q :: r.1, r.2)
      else ([], some q)

/-- `SSEConnectionManager.send_to_user` (lines 127-143): iterates over the
user's queues and `await`s a put on each; the method never mutates the
registry (its `except` clause only logs), so the state is returned
unchanged. -/
def sseSendToUser (sz : Nat → Nat) (st : SSEState) (user : String) :
    SSEState × List Nat × Option Nat :=
  match alookup st.user_connections user with
  | none => (st, [], none)
  | some conns =>
      let r := ssePutAll sz conns
      (st, r.1, r.2)

/-- `SSEConnectionManager.connect` (lines 38-64): registers a fresh queue
under the user and refreshes presence. -/
def sseConnect (st : SSEState) (user : String) (queue : Nat) : SSEState :=
  { st with
      user_connections :=
        aset st.user_connections user
          (sinsert ((alookup st.user_connections user).getD []) queue),
      user_presence := sinsert st.user_presence user }

/-- Inner loop of `SSEConnectionManager.disconnect` (lines 82-86): discard
the user from every channel's member set, deleting emptied channels. -/
def sseDropFromChannels (t : List (String × List String)) (user : String) :
    List (String × List String) :=
  match t with
  | [] => []
  | (c, ms) :: rest =>
      let ms' := sremove ms user
      if ms' = [] then sseDropFromChannels rest user
      else (c, ms') :: sseDropFromChannels rest user

/-- `SSEConnectionManager.disconnect` (lines 66-93): discards the queue;
when it was the user's last connection, removes the user from the registry,
from every channel's member set, and from presence. -/
def sseDisconnect (st : SSEState) (user : String) (queue : Nat) : SSEState :=
  match alookup st.user_connections user with
  | none => st
  | some conns =>
      let conns' := sremove conns queue
      if conns' = [] then
        { user_connections := adel st.user_connections user,
          channel_members := sseDropFromChannels st.channel_members user,
          user_presence := sremove st.user_presence user }
      else
        { st with user_connections := aset st.user_connections user conns' }

/-- `SSEConnectionManager.join_channel` (lines 95-108). -/
def sseJoinChannel (st : SSEState) (channelId user : String) : SSEState :=
  { st with
      channel_members :=
        aset st.channel_members channelId
          (sinsert ((alookup st.channel_members channelId).getD []) user) }

/-- `SSEConnectionManager.leave_channel` (lines 110-125). -/
def sseLeaveChannel (st : SSEState) (channelId user : String) : SSEState :=
  match alookup st.channel_members channelId with
  | none => st
  | some members =>
      let members' := sremove members user
      if members' = [] then
        { st with channel_members := adel st.channel_members channelId }
      else
        { st with channel_members := aset st.channel_members channelId members' }

/-- Fan-out loop of `SSEConnectionManager.broadcast_to_channel`
(lines 158-165): `if user_id == exclude_user: continue` (plain equality,
no truthiness here), then `await send_to_user`.  A blocked put suspends the
whole broadcast coroutine, so members after the blocking one receive
nothing in this step. -/
def sseFanout (sz : Nat → Nat) (st : SSEState) (excludeUser : Option String) :
    List String → List (String × Nat) × Option (String × Nat)
  | [] => ([], none)
  | u :: rest =>
      if excludeUser = some u then sseFanout sz st excludeUser rest
      else
        let r := sseSendToUser sz st u
        match r.2.2 with
        | some q => (r.2.1.map (fun d => (u, d)), some (u, q))
        | none =>
            let r' := sseFanout sz st excludeUser rest
            (r.2.1.map (fun d => (u, d)) ++ r'.1, r'.2)

/-- `SSEConnectionManager.broadcast_to_channel` (lines 145-167). -/
def sseBroadcastToChannel (sz : Nat → Nat) (st : SSEState) (channelId : String)
    (excludeUser : Option String) : List (String × Nat) × Option (String × Nat) :=
  match alookup st.channel_members channelId with
  | none => ([], none)
  | some members => sseFanout sz st excludeUser members

/-- `SSEConnectionManager.is_user_online` (lines 242-244). -/
def sseIsUserOnline (st : SSEState) (user : String) : Bool :=
  (alookup st.user_connections user).isSome

/-- Subscriber set of a channel as stored in `channel_members`. -/
def sseSubscribers (st : SSEState) (channelId : String) : List String :=
  (alookup st.channel_members channelId).getD []

/-!
## PostgreSQL notification payloads and `handle_pg_notification`

`data.get(k)` on a decoded JSON dict returns `None` when the key is
missing; `str(x)` maps `None` to `"None"`.  Only the fields that steer the
dispatch matter to the claims; the denormalized content fields flow opaquely
into the built event.
-/

structure PGPayload where
  operation : Option String
  table : Option String
  channel_id : Option String
  deriving DecidableEq, Repr

/-- Python `str` applied to `data.get('channel_id')`. -/
def pyStr (x : Option String) : String :=
  match x with
  | none => "None"
  | some s => s

/-- `SSEConnectionManager.handle_pg_notification` (lines 246-347): decides
the event type from `(table, operation)` and broadcasts the single built
event to the payload's channel (no `exclude_user`).  Returns the event type
and target channel of the one broadcast performed (or `none`), together
with the broadcast's delivery trace. -/
def sseHandlePgNotification (sz : Nat → Nat) (st : SSEState) (data : PGPayload) :
    Option (String × String) × List (String × Nat) × Option (String × Nat) :=
  if data.table = some "channel_messages" then
    let ch := pyStr data.channel_id
    if data.operation = some "INSERT" then
      (some ("new_message", ch), sseBroadcastToChannel sz st ch none)
    else if data.operation = some "UPDATE" then
      (some ("message_updated", ch), sseBroadcastToChannel sz st ch none)
    else if data.operation = some "DELETE" then
      (some ("message_deleted", ch), sseBroadcastToChannel sz st ch none)
    else (none, [], none)
  else if data.table = some "message_reactions" then
    let ch := pyStr data.channel_id
    if data.operation = some "INSERT" then
      (some ("message_reaction", ch), sseBroadcastToChannel sz st ch none)
    else if data.operation = some "DELETE" then
      (some ("reaction_removed", ch), sseBroadcastToChannel sz st ch none)
    else (none, [], none)
  else (none, [], none)

/-!
## PostgreSQL LISTEN/NOTIFY listener

Embeds `PostgreSQLListener._handle_notification` from
`backend/app/realtime/pg_listener.py` (lines 85-113).  Callbacks are
identified by `Nat`; their behavior is supplied as `run cb channel data`,
returning `true` when the awaited callback returns normally and `false`
when it raises (the inner `try/except` logs and continues).  `json.loads`
is abstracted as `decode : String → Option String`, `none` meaning
`JSONDecodeError` (caught by the outer `except`, which only logs).  The
whole handler body is wrapped in `try/except`, so the function is total and
returns the (unchanged) state together with the invocation trace
`(callback, channel, data, returned-normally)`.
-/

structure ListenerState where
  callbacks : List (String × List Nat)
  is_running : Bool
  deriving DecidableEq, Repr

/-- Loop `for callback in self.callbacks[channel]` (lines 104-108): every
callback is awaited with `(channel, data)`; a raising callback is caught
and logged, and iteration continues. -/
def invokeCallbacks (run : Nat → String → String → Bool) (channel data : String) :
    List Nat → List (Nat × String × String × Bool)
  | [] => []
  | cb :: rest =>
      (cb, channel, data, run cb channel data) :: invokeCallbacks run channel data rest

/-- `PostgreSQLListener._handle_notification` (lines 85-113). -/
def handleNotification (decode : String → Option String)
    (run : Nat → String → String → Bool) (st : ListenerState)
    (channel payload : String) : ListenerState × List (Nat × String × String × Bool) :=
  match decode payload with
  | none => (st, [])
  | some data =>
      match alookup st.callbacks channel with
      | none => (st, [])
      | some cbs => (st, invokeCallbacks run channel data cbs)

/-!
## WebSocket endpoint frame dispatch

Embeds the receive loop of `websocket_endpoint` in
`backend/app/api/v1/endpoints/websocket.py` (lines 272-312).  An inbound
frame is either not valid JSON (`json.loads` raises `JSONDecodeError`) or a
decoded object whose `"type"` field is `message.get("type")`.  The known
types are the keys of `EVENT_HANDLERS` (lines 212-219).  For a known type
the handler's response is abstracted (`handlerResp`); the loop then sends an
`ack` frame.  The reply sent, whether the receive loop continues, and
whether the frame caused the connection to be unregistered are returned.
-/

inductive WSFrame where
  | malformed
  | obj (ty : Option String)
  deriving DecidableEq, Repr

inductive FrameReply where
  | ack (event : String) (response : String)
  | errorFrame (message : String)
  deriving DecidableEq, Repr

structure FrameStep where
  reply : FrameReply
  loopContinues : Bool
  unregisters : Bool
  deriving DecidableEq, Repr

/-- Keys of `EVENT_HANDLERS` (lines 212-219). -/
def eventHandlerTypes : List String :=
  ["new_message", "typing", "read_receipt", "join_channel", "leave_channel",
   "message_reaction"]

/-- Python `f"Unknown event type: {event_type}"` where a missing `"type"`
key prints as `None`. -/
def unknownTypeMessage (ty : Option String) : String :=
  "Unknown event type: " ++ pyStr ty

/-- One iteration of the receive loop (lines 274-312): invalid JSON yields
an `"Invalid JSON format"` error frame; an unknown `type` yields an
`"Unknown event type: ..."` error frame; a known `type` runs its handler
and yields an `ack`.  In every case the loop continues (`while True`) and
`manager.disconnect` is not reached — it runs only in the
`except WebSocketDisconnect` arm outside the loop. -/
def processFrame (handlerResp : String → String) (fr : WSFrame) : FrameStep :=
  match fr with
  | .malformed => ⟨.errorFrame "Invalid JSON format", true, false⟩
  | .obj ty =>
      match ty with
      | some t =>
          if eventHandlerTypes.contains t then
            ⟨.ack t (handlerResp t), true, false⟩
          else ⟨.errorFrame (unknownTypeMessage (some t)), true, false⟩
      | none => ⟨.errorFrame (unknownTypeMessage none), true, false⟩

/-- A frame the claim calls bad: not valid JSON, or a `type` outside
`EVENT_HANDLERS` (including a missing `type`). -/
def badFrame (fr : WSFrame) : Bool :=
  match fr with
  | .malformed => true
  | .obj none => true
  | .obj (some t) => !(eventHandlerTypes.contains t)

/-! ## Further helper lemmas -/

theorem mem_sinsert_self {α : Type} [DecidableEq α] (l : List α) (x : α) :
    x ∈ sinsert l x := by
  unfold sinsert
  by_cases h : x ∈ l
  · simpa [h]
  · simp [h]

theorem sinsert_of_mem {α : Type} [DecidableEq α] (l : List α) (x : α) (h : x ∈ l) :
    sinsert l x = l := by
  simp [sinsert, h]

theorem invokeCallbacks_eq_map (run : Nat → String → String → Bool)
    (channel data : String) (cbs : List Nat) :
    invokeCallbacks run channel data cbs =
      cbs.map (fun cb => (cb, channel, data, run cb channel data)) := by
  induction cbs with
  | nil => rfl
  | cons cb rest ih => simp [invokeCallbacks, ih]

/-! ## Claim theorems -/

/-- C3, counterexample: in a state where user `"u"` already has a live
connection (socket 1), a second `connect` for `"u"` (socket 2) still emits
a presence-online broadcast, contradicting the claim that a connect for a
user who already has a live connection does not emit one. -/
theorem connect_presence_counterexample :
    wsIsUserOnline ⟨[("u", [1])], [], ["u"]⟩ "u" = true ∧
      (wsConnect ⟨[("u", [1])], [], ["u"]⟩ "u" 2).2 = [("u", true)] := by
  constructor <;> rfl

/-- C3, amended: `ConnectionManager.connect` broadcasts exactly one
presence-online event on every successful registration, whether or not the
user already had live connections — the call to
`broadcast_presence_update(user_id, True)` at line 54 is unconditional. -/
theorem connect_always_broadcasts_presence (st : WSState) (user : String) (ws : Nat) :
    (wsConnect st user ws).2 = [(user, true)] := rfl

/-- C9: an inbound frame that is not valid JSON, or whose `type` is not a
key of `EVENT_HANDLERS` (including a missing `type`), makes the endpoint
send a client-visible error frame; the receive loop continues and the
connection is not unregistered by that frame. -/
theorem bad_frame_error_not_disconnect (handlerResp : String → String)
    (fr : WSFrame) (h : badFrame fr = true) :
    (∃ m, (processFrame handlerResp fr).reply = FrameReply.errorFrame m) ∧
      (processFrame handlerResp fr).loopContinues = true ∧
      (processFrame handlerResp fr).unregisters = false := by
  cases fr with
  | malformed => exact ⟨⟨"Invalid JSON format", rfl⟩, rfl, rfl⟩
  | obj ty =>
      cases ty with
      | none => exact ⟨⟨unknownTypeMessage none, rfl⟩, rfl, rfl⟩
      | some t =>
          have h' : t ∉ eventHandlerTypes := by simpa [badFrame] using h
          refine ⟨⟨unknownTypeMessage (some t), ?_⟩, ?_, ?_⟩ <;>
            simp [processFrame, h']

/-- C9 witness: a malformed frame gets an error frame, the loop continues,
and nothing is unregistered. -/
theorem bad_frame_error_not_disconnect_witness :
    badFrame WSFrame.malformed = true ∧
      ((∃ m, (processFrame (fun _ => "") WSFrame.malformed).reply =
          FrameReply.errorFrame m) ∧
        (processFrame (fun _ => "") WSFrame.malformed).loopContinues = true ∧
        (processFrame (fun _ => "") WSFrame.malformed).unregisters = false) :=
  ⟨rfl, bad_frame_error_not_disconnect (fun _ => "") WSFrame.malformed rfl⟩

/-- C10: when the notification payload fails to JSON-decode, the handler
invokes no callback, returns normally (the `JSONDecodeError` is caught and
only logged), and leaves the listener state — callback registry and
connection flags — unchanged. -/
theorem malformed_payload_no_callbacks (decode : String → Option String)
    (run : Nat → String → String → Bool) (st : ListenerState)
    (channel payload : String) (h : decode payload = none) :
    handleNotification decode run st channel payload = (st, []) := by
  simp [handleNotification, h]

/-- C10 witness. -/
theorem malformed_payload_no_callbacks_witness :
    (fun (_ : String) => (none : Option String)) "not json" = none ∧
      handleNotification (fun _ => none) (fun _ _ _ => true)
        ⟨[("channel_messages", [0])], true⟩ "channel_messages" "not json" =
        (⟨[("channel_messages", [0])], true⟩, []) :=
  ⟨rfl,
   malformed_payload_no_callbacks (fun _ => none) (fun _ _ _ => true)
     ⟨[("channel_messages", [0])], true⟩ "channel_messages" "not json" rfl⟩

/-- C8: on a decodable notification for a channel with registered
callbacks, the handler invokes every registered callback, in registration
order, with `(channel_name, decoded_payload)` — the trace equals this
`map` for EVERY behavior `run`, so a callback that raises (`run cb … =
false`) is logged without preventing the invocation of the remaining
callbacks — and the handler returns normally with the listener state
unchanged. -/
theorem notification_invokes_all_handlers (decode : String → Option String)
    (run : Nat → String → String → Bool) (st : ListenerState)
    (channel payload data : String) (cbs : List Nat)
    (hdec : decode payload = some data)
    (hcbs : alookup st.callbacks channel = some cbs) :
    handleNotification decode run st channel payload =
      (st, cbs.map (fun cb => (cb, channel, data, run cb channel data))) := by
  simp [handleNotification, hdec, hcbs, invokeCallbacks_eq_map]

/-- C8 witness: two callbacks; the first raises, the second is still
invoked with the same `(channel, payload)` arguments. -/
theorem notification_invokes_all_handlers_witness :
    (fun (s : String) => some (s ++ "!")) "p" = some "p!" ∧
      alookup (⟨[("channel_messages", [7, 8])], true⟩ : ListenerState).callbacks
        "channel_messages" = some [7, 8] ∧
      handleNotification (fun s => some (s ++ "!"))
        (fun cb _ _ => decide (cb ≠ 7)) ⟨[("channel_messages", [7, 8])], true⟩
        "channel_messages" "p" =
        (⟨[("channel_messages", [7, 8])], true⟩,
         [(7, "channel_messages", "p!", false), (8, "channel_messages", "p!", true)]) :=
  ⟨rfl, rfl,
   by
     have h := notification_invokes_all_handlers (fun s => some (s ++ "!"))
       (fun cb _ _ => decide (cb ≠ 7)) ⟨[("channel_messages", [7, 8])], true⟩
       "channel_messages" "p" "p!" [7, 8] rfl rfl
     simpa using h⟩

/-- C7: on the WebSocket manager's channel table, `join` twice equals
`join` once; `leave` of a non-subscriber is a no-op (the table never stores
an empty set: entries are created by `join` with their first member and
deleted by `leave` when emptied, whence the `ms ≠ []` reachability
hypothesis); and `leave` of the last subscriber deletes the channel entry
rather than keeping it empty. -/
theorem join_leave_idempotent :
    (∀ (st : WSState) (c u : String),
        wsJoinChannel (wsJoinChannel st c u) c u = wsJoinChannel st c u) ∧
    (∀ (st : WSState) (c u : String),
        alookup st.channel_members c = none → wsLeaveChannel st c u = st) ∧
    (∀ (st : WSState) (c u : String) (ms : List String),
        alookup st.channel_members c = some ms → u ∉ ms → ms ≠ [] →
        wsLeaveChannel st c u = st) ∧
    (∀ (st : WSState) (c u : String) (ms : List String),
        alookup st.channel_members c = some ms → sremove ms u = [] →
        alookup (wsLeaveChannel st c u).channel_members c = none) := by
  refine ⟨?_, ?_, ?_, ?_⟩
  · intro st c u
    have hA := alookup_aset_self st.channel_members c
      (sinsert ((alookup st.channel_members c).getD []) u)
    simp only [wsJoinChannel]
    rw [hA, Option.getD_some,
      sinsert_of_mem _ _ (mem_sinsert_self ((alookup st.channel_members c).getD []) u),
      aset_self_of_lookup _ _ _ hA]
  · intro st c u h
    simp [wsLeaveChannel, h]
  · intro st c u ms h hu hne
    simp only [wsLeaveChannel, h]
    rw [sremove_eq_self_of_not_mem ms u hu]
    simp [hne, aset_self_of_lookup _ _ _ h]
  · intro st c u ms h hrem
    simp only [wsLeaveChannel, h, hrem]
    simp [alookup_adel_self]

/-- C7 witness: joining `"c"` twice equals joining once; leaving an absent
channel and leaving a channel one is not in are no-ops; leaving as the last
subscriber deletes the channel entry. -/
theorem join_leave_idempotent_witness :
    (wsJoinChannel (wsJoinChannel ⟨[], [], []⟩ "c" "a") "c" "a" =
        wsJoinChannel ⟨[], [], []⟩ "c" "a") ∧
      (wsLeaveChannel ⟨[], [("c", ["a"])], []⟩ "d" "a" = ⟨[], [("c", ["a"])], []⟩) ∧
      (wsLeaveChannel ⟨[], [("c", ["a"])], []⟩ "c" "b" = ⟨[], [("c", ["a"])], []⟩) ∧
      (alookup (wsLeaveChannel ⟨[], [("c", ["a"])], []⟩ "c" "a").channel_members "c" =
        none) :=
  ⟨join_leave_idempotent.1 ⟨[], [], []⟩ "c" "a",
   join_leave_idempotent.2.1 ⟨[], [("c", ["a"])], []⟩ "d" "a" rfl,
   join_leave_idempotent.2.2.1 ⟨[], [("c", ["a"])], []⟩ "c" "b" ["a"] rfl
     (by decide) (by decide),
   join_leave_idempotent.2.2.2 ⟨[], [("c", ["a"])], []⟩ "c" "a" ["a"] rfl rfl⟩

theorem not_mem_of_mem_sseDropFromChannels (t : List (String × List String))
    (user c : String) (ms : List String)
    (h : (c, ms) ∈ sseDropFromChannels t user) : user ∉ ms := by
  induction t with
  | nil => simp [sseDropFromChannels] at h
  | cons p rest ih =>
      obtain ⟨c', ms'⟩ := p
      simp only [sseDropFromChannels] at h
      by_cases he : sremove ms' user = []
      · rw [if_pos he] at h
        exact ih h
      · rw [if_neg he] at h
        rcases List.mem_cons.mp h with heq | h2
        · have hm : ms = sremove ms' user := congrArg Prod.snd heq
          rw [hm]
          exact not_mem_sremove ms' user
        · exact ih h2

/-- C1, counterexample: user `"u"` holds a single WebSocket connection and
is a member of channel `"c"`; after `disconnect` removes that last
connection, `is_user_online` is `false` but `"u"` is STILL in `"c"`'s
subscriber set — `ConnectionManager.disconnect` never touches
`channel_members`, so the claim's second conjunct fails. -/
theorem disconnect_membership_counterexample :
    wsIsUserOnline (wsDisconnect ⟨[("u", [1])], [("c", ["u"])], ["u"]⟩ "u" 1).1 "u" =
        false ∧
      "u" ∈ wsSubscribers (wsDisconnect ⟨[("u", [1])], [("c", ["u"])], ["u"]⟩ "u" 1).1
        "c" := by
  decide

/-- C1, amended: after the last connection of a user is unregistered,
`is_user_online(user)` is false in both managers; the SSE manager
additionally removes the user from every channel's subscriber set, while
the WebSocket manager leaves `channel_members` exactly as it was. -/
theorem last_disconnect_offline :
    (∀ (st : SSEState) (u : String) (q : Nat) (conns : List Nat),
        alookup st.user_connections u = some conns → sremove conns q = [] →
        sseIsUserOnline (sseDisconnect st u q) u = false ∧
          ∀ c ms, (c, ms) ∈ (sseDisconnect st u q).channel_members → u ∉ ms) ∧
    (∀ (st : WSState) (u : String) (w : Nat) (conns : List Nat),
        alookup st.active_connections u = some conns → sremove conns w = [] →
        wsIsUserOnline (wsDisconnect st u w).1 u = false ∧
          (wsDisconnect st u w).1.channel_members = st.channel_members) := by
  constructor
  · intro st u q conns h hrem
    simp only [sseDisconnect, h, hrem]
    refine ⟨?_, ?_⟩
    · simp [sseIsUserOnline, alookup_adel_self]
    · intro c ms hmem
      exact not_mem_of_mem_sseDropFromChannels st.channel_members u c ms (by simpa using hmem)
  · intro st u w conns h hrem
    simp only [wsDisconnect, h, hrem]
    exact ⟨by simp [wsIsUserOnline, alookup_adel_self], rfl⟩

/-- C1 witness: concrete last-disconnects in both managers. -/
theorem last_disconnect_offline_witness :
    (sseIsUserOnline (sseDisconnect ⟨[("u", [5])], [("c", ["u", "v"])], ["u"]⟩ "u" 5)
        "u" = false) ∧
      (wsIsUserOnline (wsDisconnect ⟨[("u", [1])], [("c", ["u"])], ["u"]⟩ "u" 1).1 "u" =
        false) :=
  ⟨((last_disconnect_offline.1 ⟨[("u", [5])], [("c", ["u", "v"])], ["u"]⟩ "u" 5 [5]
      rfl rfl).1),
   ((last_disconnect_offline.2 ⟨[("u", [1])], [("c", ["u"])], ["u"]⟩ "u" 1 [1]
      rfl rfl).1)⟩

/-- C6: `send_personal_message(u, event)` delivers the event on exactly the
connections of `u` whose `send_text` succeeds (`fails = false`); every
delivery is to a connection of `u`; the failing connections — and only they
— are removed from `u`'s registry entry; every other user's entry, the
channel table and presence are untouched; and the call returns normally
(the per-socket exception is caught). -/
theorem send_personal_message_spec (fails : Nat → Bool) (st : WSState)
    (u : String) (conns : List Nat)
    (h : alookup st.active_connections u = some conns) :
    (wsSendPersonalMessage fails st u).2 = conns.filter (fun w => !(fails w)) ∧
      (∀ w ∈ (wsSendPersonalMessage fails st u).2, w ∈ conns) ∧
      alookup (wsSendPersonalMessage fails st u).1.active_connections u =
        some (conns.filter (fun w => !(fails w))) ∧
      (∀ v, v ≠ u →
        alookup (wsSendPersonalMessage fails st u).1.active_connections v =
          alookup st.active_connections v) ∧
      (wsSendPersonalMessage fails st u).1.channel_members = st.channel_members ∧
      (wsSendPersonalMessage fails st u).1.user_presence = st.user_presence := by
  simp only [wsSendPersonalMessage, h]
  by_cases hd : conns.filter (fun w => fails w) = []
  · have hself : conns.filter (fun w => !(fails w)) = conns := by
      refine List.filter_eq_self.mpr ?_
      intro a ha
      have := List.filter_eq_nil_iff.mp hd a ha
      simpa using this
    rw [if_pos hd]
    refine ⟨rfl, ?_, ?_, ?_, rfl, rfl⟩
    · intro w hw
      exact List.mem_of_mem_filter hw
    · rw [hself]
      exact h
    · intro v _
      rfl
  · rw [if_neg hd]
    refine ⟨rfl, ?_, ?_, ?_, rfl, rfl⟩
    · intro w hw
      exact List.mem_of_mem_filter hw
    · exact alookup_aset_self ..
    · intro v hv
      exact alookup_aset_other _ _ _ _ hv

/-- C6 witness: user `"u"` has sockets 1 and 2; the send on socket 1
raises, so the event is delivered on socket 2 only and socket 1 alone is
removed from the registry. -/
theorem send_personal_message_spec_witness :
    (wsSendPersonalMessage (fun w => decide (w = 1))
        ⟨[("u", [1, 2]), ("v", [3])], [], ["u", "v"]⟩ "u").2 = [2] ∧
      alookup (wsSendPersonalMessage (fun w => decide (w = 1))
        ⟨[("u", [1, 2]), ("v", [3])], [], ["u", "v"]⟩ "u").1.active_connections "u" =
        some [2] := by
  have hs := send_personal_message_spec (fun w => decide (w = 1))
    ⟨[("u", [1, 2]), ("v", [3])], [], ["u", "v"]⟩ "u" [1, 2] rfl
  constructor
  · rw [hs.1]
    decide
  · rw [hs.2.2.1]
    decide

/-- Sequential puts across a full queue: every queue before the first full
one receives the event, the caller suspends on the full queue, and nothing
after it is reached. -/
theorem ssePutAll_blocked (sz : Nat → Nat) (pre : List Nat) (q : Nat)
    (post : List Nat) (hpre : ∀ p ∈ pre, sz p < 100) (hq : ¬ sz q < 100) :
    ssePutAll sz (pre ++ q :: post) = (pre, some q) := by
  induction pre with
  | nil =>
      simp only [List.nil_append, ssePutAll, ssePutReady]
      rw [if_neg (by simpa using hq)]
  | cons p rest ih =>
      have hp : sz p < 100 := hpre p (List.mem_cons_self ..)
      have hrest : ∀ r ∈ rest, sz r < 100 := fun r hr => hpre r (List.mem_cons_of_mem _ hr)
      simp only [List.cons_append, ssePutAll, ssePutReady, List.append_eq]
      rw [if_pos (by simpa using hp), ih hrest]

/-- C2, counterexample: user `"a"` has two SSE connections, queue 0 (full,
100 items) and queue 1.  The next `send_to_user` suspends on
`await queue.put` at queue 0 — the broadcaster blocks, the full connection
is NOT dropped (the state is returned unchanged, queue 0 still registered),
and queue 1, the same user's other connection, receives nothing while the
call is blocked.  This falsifies every part of the claim except
"does not raise". -/
theorem full_queue_counterexample :
    sseSendToUser (fun q => if q = 0 then 100 else 0)
        ⟨[("a", [0, 1])], [], ["a"]⟩ "a" =
      (⟨[("a", [0, 1])], [], ["a"]⟩, [], some 0) := by
  rfl

/-- C2, amended: an enqueue to a full SSE queue raises nothing to the
caller, but `await queue.put` suspends there: the queues earlier in the
iteration have received the event, the broadcast coroutine is blocked on
the full queue, no queue after it is served, and the registry is unchanged
— the full connection is NOT dropped. -/
theorem full_queue_blocks_send (sz : Nat → Nat) (st : SSEState) (u : String)
    (pre : List Nat) (q : Nat) (post : List Nat)
    (h : alookup st.user_connections u = some (pre ++ q :: post))
    (hpre : ∀ p ∈ pre, sz p < 100) (hq : ¬ sz q < 100) :
    sseSendToUser sz st u = (st, pre, some q) := by
  simp only [sseSendToUser, h, ssePutAll_blocked sz pre q post hpre hq]

/-- C2 witness: queue 2 is served, the send blocks on full queue 0, queue 5
is never reached, and the state is unchanged. -/
theorem full_queue_blocks_send_witness :
    sseSendToUser (fun q => if q = 0 then 100 else 0)
        ⟨[("a", [2, 0, 5])], [], ["a"]⟩ "a" =
      (⟨[("a", [2, 0, 5])], [], ["a"]⟩, [2], some 0) :=
  full_queue_blocks_send (fun q => if q = 0 then 100 else 0)
    ⟨[("a", [2, 0, 5])], [], ["a"]⟩ "a" [2] 0 [5] rfl (by decide) (by decide)

/-- C4, counterexample: `"u"` and `"v"` are both connected subscribers of
channel `"c"`.  `ConnectionManager.broadcast_read_receipt` passes no
`exclude_user` (line 202), so the sender `"u"` receives its OWN read
receipt on socket 1, contradicting the claim that none of the sender's
connections receive it. -/
theorem read_receipt_echo_counterexample :
    ("u", 1) ∈ wsBroadcastReadReceipt (fun _ => false)
      ⟨[("u", [1]), ("v", [2])], [("c", ["u", "v"])], ["u", "v"]⟩ "c" "u" := by
  decide

/-- When no send fails, `broadcast_to_channel` reaches all connections of
every non-excluded member. -/
theorem wsBroadcastToChannel_no_failures (fails : Nat → Bool) (st : WSState)
    (c : String) (ex : Option String) (hf : ∀ w, fails w = false) :
    wsBroadcastToChannel fails st c ex =
      ((wsSubscribers st c).filter (fun v => !(wsExcluded ex v))).flatMap
        (fun v => ((alookup st.active_connections v).getD []).map
          (fun ws => (v, ws))) := by
  cases h : alookup st.channel_members c with
  | none => simp [wsBroadcastToChannel, wsSubscribers, h]
  | some members =>
      simp only [wsBroadcastToChannel, wsSubscribers, h, Option.getD_some]
      congr 1
      funext v
      congr 1
      refine List.filter_eq_self.mpr ?_
      intro a _
      simp [hf a]

/-- C4, amended: with `exclude_user=user_id`, a typing indicator from a
non-degenerate sender `u` (the route's path parameter is never the empty
string, which Python truthiness would treat as no exclusion) reaches every
connection of every other subscriber of the channel and none of `u`'s own
connections; but `ConnectionManager.broadcast_read_receipt` passes no
`exclude_user`, so a read receipt reaches every connection of EVERY
connected subscriber, the sender's included. -/
theorem typing_excludes_sender_read_receipt_echoes (fails : Nat → Bool)
    (st : WSState) (c u : String) (hu : u ≠ "") (hf : ∀ w, fails w = false) :
    wsBroadcastTypingIndicator fails st c u =
      ((wsSubscribers st c).filter (fun v => v != u)).flatMap
        (fun v => ((alookup st.active_connections v).getD []).map
          (fun ws => (v, ws))) ∧
      (∀ w, (u, w) ∉ wsBroadcastTypingIndicator fails st c u) ∧
      wsBroadcastReadReceipt fails st c u =
        (wsSubscribers st c).flatMap
          (fun v => ((alookup st.active_connections v).getD []).map
            (fun ws => (v, ws))) := by
  have hty : wsBroadcastTypingIndicator fails st c u =
      ((wsSubscribers st c).filter (fun v => v != u)).flatMap
        (fun v => ((alookup st.active_connections v).getD []).map
          (fun ws => (v, ws))) := by
    rw [wsBroadcastTypingIndicator, wsBroadcastToChannel_no_failures fails st c (some u) hf]
    congr 1
    refine List.filter_congr ?_
    intro v _
    by_cases h : v = u
    · simp [wsExcluded, hu, h]
    · simp [wsExcluded, hu, h, Ne.symm h]
  refine ⟨hty, ?_, ?_⟩
  · intro w hw
    rw [hty] at hw
    rcases List.mem_flatMap.mp hw with ⟨v, hv, hvw⟩
    rcases List.mem_map.mp hvw with ⟨ws, _, heq⟩
    have hvu : v = u := by simpa using congrArg Prod.fst heq
    have := List.of_mem_filter hv
    rw [hvu] at this
    simp at this
  · rw [wsBroadcastReadReceipt, wsBroadcastToChannel_no_failures fails st c none hf]
    congr 1
    simp [wsExcluded]

/-- C4 witness: subscribers `"u"` (socket 1, the sender) and `"v"`
(socket 2) of channel `"c"`: the typing broadcast reaches only `("v", 2)`,
the read-receipt broadcast reaches both, echoing to the sender. -/
theorem typing_excludes_sender_witness :
    wsBroadcastTypingIndicator (fun _ => false)
        ⟨[("u", [1]), ("v", [2])], [("c", ["u", "v"])], ["u", "v"]⟩ "c" "u" =
      [("v", 2)] ∧
      wsBroadcastReadReceipt (fun _ => false)
        ⟨[("u", [1]), ("v", [2])], [("c", ["u", "v"])], ["u", "v"]⟩ "c" "u" =
      [("u", 1), ("v", 2)] := by
  have h := typing_excludes_sender_read_receipt_echoes (fun _ => false)
    ⟨[("u", [1]), ("v", [2])], [("c", ["u", "v"])], ["u", "v"]⟩ "c" "u"
    (by decide) (fun _ => rfl)
  constructor
  · rw [h.1]
    decide
  · rw [h.2.2]
    decide

theorem ssePutAll_all_ready (sz : Nat → Nat) (conns : List Nat)
    (h : ∀ q ∈ conns, sz q < 100) : ssePutAll sz conns = (conns, none) := by
  induction conns with
  | nil => rfl
  | cons q rest ih =>
      simp only [ssePutAll, ssePutReady]
      rw [if_pos (by simpa using h q (List.mem_cons_self ..)),
        ih (fun r hr => h r (List.mem_cons_of_mem _ hr))]

/-- Delivery trace of an unexcluded channel fan-out: one enqueue per
connection of each member, in member order. -/
def sseFanoutTrace (st : SSEState) (members : List String) : List (String × Nat) :=
  members.flatMap (fun v =>
    ((alookup st.user_connections v).getD []).map (fun q => (v, q)))

theorem mem_sseFanoutTrace_fst (st : SSEState) (members : List String)
    (x : String × Nat) (h : x ∈ sseFanoutTrace st members) : x.1 ∈ members := by
  rcases List.mem_flatMap.mp h with ⟨v, hv, hx⟩
  rcases List.mem_map.mp hx with ⟨q, _, heq⟩
  rw [← heq]
  exact hv

theorem sseFanout_all_ready (sz : Nat → Nat) (st : SSEState)
    (members : List String) (hsz : ∀ q, sz q < 100) :
    sseFanout sz st none members = (sseFanoutTrace st members, none) := by
  induction members with
  | nil => rfl
  | cons u rest ih =>
      rw [sseFanout, if_neg (by simp)]
      cases hv : alookup st.user_connections u with
      | none =>
          simp only [sseSendToUser, hv, ih]
          simp [sseFanoutTrace, hv]
      | some conns =>
          have hput := ssePutAll_all_ready sz conns (fun q _ => hsz q)
          simp only [sseSendToUser, hv, hput, ih]
          simp [sseFanoutTrace, hv]

theorem sseFanoutTrace_nodup (st : SSEState) (members : List String)
    (hm : members.Nodup)
    (hc : ∀ v, ((alookup st.user_connections v).getD []).Nodup) :
    (sseFanoutTrace st members).Nodup := by
  induction members with
  | nil => simp [sseFanoutTrace]
  | cons u rest ih =>
      rw [sseFanoutTrace, List.flatMap_cons, List.nodup_append]
      refine ⟨?_, ?_, ?_⟩
      · exact (hc u).map (fun a b hab => by simpa using congrArg Prod.snd hab)
      · exact ih hm.of_cons
      · intro x hx hx'
        rcases List.mem_map.mp hx with ⟨q, _, heq⟩
        have hx1 : x.1 = u := by rw [← heq]
        have hxr : x.1 ∈ rest := mem_sseFanoutTrace_fst st rest x hx'
        rw [hx1] at hxr
        exact (List.nodup_cons.mp hm).1 hxr

/-- C5: a `ChangeNotification` with `table=channel_messages`,
`operation=INSERT`, `channel_id=C` makes `handle_pg_notification` perform
exactly one broadcast, of a `new_message` event targeted at `C`; when no
queue is at capacity its delivery trace enqueues the event on every
connection of every currently-registered subscriber of `C` (one entry per
connection, duplicate-free under the set invariants), every delivery goes
to a subscriber of `C`, and no other channel's subscribers receive
anything. -/
theorem insert_notification_fanout (sz : Nat → Nat) (st : SSEState) (C : String)
    (members : List String)
    (hmem : alookup st.channel_members C = some members)
    (hsz : ∀ q, sz q < 100) :
    sseHandlePgNotification sz st ⟨some "INSERT", some "channel_messages", some C⟩ =
        (some ("new_message", C), sseFanoutTrace st members, none) ∧
      (∀ v q, (v, q) ∈ sseFanoutTrace st members → v ∈ sseSubscribers st C) ∧
      (members.Nodup → (∀ v, ((alookup st.user_connections v).getD []).Nodup) →
        (sseFanoutTrace st members).Nodup) := by
  refine ⟨?_, ?_, fun h1 h2 => sseFanoutTrace_nodup st members h1 h2⟩
  · simp [sseHandlePgNotification, pyStr, sseBroadcastToChannel, hmem,
      sseFanout_all_ready sz st members hsz]
  · intro v q hvq
    have := mem_sseFanoutTrace_fst st members (v, q) hvq
    simpa [sseSubscribers, hmem] using this

/-- C5 witness: subscribers `"a"` (queue 1) and `"b"` (queue 2) of channel
`"c"` each get one enqueue of the `new_message` event; user `"d"`, a
subscriber only of channel `"e"`, gets none. -/
theorem insert_notification_fanout_witness :
    sseHandlePgNotification (fun _ => 0)
        ⟨[("a", [1]), ("b", [2]), ("d", [9])],
         [("c", ["a", "b"]), ("e", ["d"])], ["a", "b", "d"]⟩
        ⟨some "INSERT", some "channel_messages", some "c"⟩ =
      (some ("new_message", "c"), [("a", 1), ("b", 2)], none) := by
  have h := insert_notification_fanout (fun _ => 0)
    ⟨[("a", [1]), ("b", [2]), ("d", [9])],
     [("c", ["a", "b"]), ("e", ["d"])], ["a", "b", "d"]⟩ "c" ["a", "b"] rfl
    (fun _ => by show (0 : Nat) < 100 ; decide)
  rw [h.1]
  decide

end CampusPandit
